import Mathlib

/-
Shallow embedding of the auto-update polling core of the Auto-Update-Film
Discord bot (src/cogs/auto_update.py, src/services/tmdb_client.py,
src/core/config.py) together with the calendar arithmetic of the Python
standard library that the code relies on (datetime.strptime with format
"%Y-%m-%d", date.toordinal, timedelta.days).

Datetimes are represented as an integer number of seconds on a single
absolute scale; a calendar date parsed from "YYYY-MM-DD" denotes midnight
of that day, i.e. (proleptic Gregorian ordinal) * 86400 seconds.
Python's timedelta.days is a floor division of the total seconds by 86400,
which is Int.fdiv here.
-/

namespace AutoUpdateFilm

/-! ## Calendar arithmetic (mirrors CPython datetime internals) -/

/-- Gregorian leap-year test, as in CPython datetime. -/
def isLeap (y : Nat) : Bool :=
  (y % 4 == 0 && y % 100 != 0) || y % 400 == 0

/-- Number of days in month m of year y (m in 1..12). -/
def daysInMonth (y m : Nat) : Nat :=
  if m == 2 then (if isLeap y then 29 else 28)
  else if m == 4 || m == 6 || m == 9 || m == 11 then 30
  else 31

/-- Days before January 1st of year y, counting from year 1
(CPython datetime._days_before_year). -/
def daysBeforeYear (y : Nat) : Nat :=
  let p := y - 1
  365 * p + p / 4 + p / 400 - p / 100

/-- Days in year y that precede the first day of month m
(CPython datetime._days_before_month). -/
def daysBeforeMonth (y m : Nat) : Nat :=
  (List.range (m - 1)).foldl (fun acc i => acc + daysInMonth y (i + 1)) 0

/-- Proleptic Gregorian ordinal of the date y-m-d, with 0001-01-01 having
ordinal 1 (CPython date.toordinal). -/
def toOrdinal (y m d : Nat) : Nat :=
  daysBeforeYear y + daysBeforeMonth y m + d

/-- Numeric value of a digit string. -/
def digitsVal (cs : List Char) : Nat :=
  cs.foldl (fun n c => 10 * n + (c.toNat - 48)) 0

/-- Every character is an ASCII digit and the string is nonempty. -/
def allDigits (cs : List Char) : Bool :=
  !cs.isEmpty && cs.all (·.isDigit)

/-- Split a character list on the '-' separator (like str.split("-")). -/
def splitDash : List Char → List (List Char)
  | [] => [[]]
  | c :: rest =>
    let r := splitDash rest
    if c == '-' then [] :: r
    else
      match r with
      | h :: t => (c :: h) :: t
      | [] => [[c]]

/-- Parse of datetime.strptime(s, "%Y-%m-%d").  CPython's %Y directive
matches exactly four digits, %m and %d match one or two digits bounded by
12 / 31, the whole string must be consumed, and the datetime constructor
additionally validates the day against the month length and requires
year >= 1.  Returns the proleptic Gregorian ordinal of the parsed date. -/
def parseDate (s : String) : Option Nat :=
  match splitDash s.data with
  | [ys, ms, ds] =>
    if ys.length == 4 && allDigits ys &&
       (ms.length == 1 || ms.length == 2) && allDigits ms &&
       (ds.length == 1 || ds.length == 2) && allDigits ds then
      let y := digitsVal ys
      let m := digitsVal ms
      let d := digitsVal ds
      if 1 ≤ y && 1 ≤ m && m ≤ 12 && 1 ≤ d && d ≤ daysInMonth y m then
        some (toOrdinal y m d)
      else none
    else none
  | _ => none

/-- (a - b).days for two datetimes given in seconds: Python timedelta.days
is the floor of the difference divided by 86400. -/
def daysDiff (a b : Int) : Int :=
  Int.fdiv (a - b) 86400

/-! ## Data model (core.database rows and TMDB payload fields) -/

/-- One row of the Subscription table that the auto-update cog reads. -/
structure Subscription where
  id : Nat
  mediaType : String
  tmdbId : Nat
  notifyOnRelease : Bool
  notifyOnUpdate : Bool
  lastChecked : Option Int
deriving DecidableEq

/-- One row of the Guild table (the fields update_check and
_send_notification consult). -/
structure GuildData where
  id : Nat
  autoUpdateEnabled : Bool
  notificationChannelId : Option Nat
  notificationRoleId : Option Nat
deriving DecidableEq

/-- The resolved discord.Guild object: which channel ids resolve via
guild.get_channel, which role ids via guild.get_role, and the optional
system channel. -/
structure DiscordGuild where
  systemChannelId : Option Nat
  channels : List Nat
  roles : List Nat
deriving DecidableEq

/-- The next_episode_to_air object of a TMDB TV-details payload (when
present it is a populated JSON object, hence truthy in Python). -/
structure Episode where
  airDate : Option String
  seasonNumber : Nat
  episodeNumber : Nat
  epName : String
deriving DecidableEq

/-- The fields of a TMDB details payload that _check_for_updates reads
(dict.get returns None for absent keys). -/
structure Details where
  releaseDate : Option String := none
  status : Option String := none
  title : Option String := none
  lastAirDate : Option String := none
  nextEpisodeToAir : Option Episode := none
  tvName : Option String := none
deriving DecidableEq

/-- Python truthiness of an optional string: None and "" are falsy. -/
def optTruthy : Option String → Bool
  | none => false
  | some s => !(s == "")

inductive NotifType where
  | release
  | upcoming
  | new_episode
  | episode_aired
deriving DecidableEq

/-- The notification dict built by _check_for_updates. -/
structure Notification where
  ntype : NotifType
  date : String
  title : Option String
  episode : Option Episode := none
deriving DecidableEq

/-! ## Update Evaluator (_check_for_updates)

The Python body can raise ValueError out of datetime.strptime when a
truthy date string does not parse; that is the Except.error case.  A
normal return of None is Except.ok none. -/

/-- The recently-released / recently-aired window of _check_for_updates:
Python evaluates 0 <= days <= Config.UPDATE_INTERVAL_HOURS / 24 where /
is true division, so the right-hand bound is the exact rational
intervalHours / 24 (for whole-day counts the float comparison agrees
with the exact rational one). -/
def withinWindow (intervalHours : Nat) (days : Int) : Prop :=
  0 ≤ days ∧ (days : ℚ) ≤ (intervalHours : ℚ) / 24

instance instDecWithinWindow (h : Nat) (d : Int) :
    Decidable (withinWindow h d) :=
  decidable_of_iff (0 ≤ d ∧ d * 24 ≤ (h : Int)) (by
    unfold withinWindow
    apply and_congr Iff.rfl
    rw [le_div_iff₀ (by norm_num : (0 : ℚ) < 24)]
    constructor
    · intro hle
      exact_mod_cast hle
    · intro hle
      exact_mod_cast hle)

def checkForUpdates (intervalHours : Nat) (sub : Subscription)
    (details : Details) (now : Int) : Except Unit (Option Notification) :=
  if sub.mediaType == "movie" then
    if optTruthy details.releaseDate && sub.notifyOnRelease then
      match parseDate (details.releaseDate.getD "") with
      | none => Except.error ()
      | some relOrd =>
        if details.status == some "Released" then
          let days := daysDiff now ((relOrd : Int) * 86400)
          if withinWindow intervalHours days then
            Except.ok (some { ntype := NotifType.release,
                              date := details.releaseDate.getD "",
                              title := details.title })
          else Except.ok none
        else if details.status == some "Post Production" ||
                details.status == some "In Production" then
          let days := daysDiff ((relOrd : Int) * 86400) now
          if 0 ≤ days ∧ days ≤ 7 then
            Except.ok (some { ntype := NotifType.upcoming,
                              date := details.releaseDate.getD "",
                              title := details.title })
          else Except.ok none
        else Except.ok none
    else Except.ok none
  else if sub.mediaType == "tv" then
    match details.nextEpisodeToAir with
    | some ep =>
      if sub.notifyOnUpdate then
        if optTruthy ep.airDate then
          match parseDate (ep.airDate.getD "") with
          | none => Except.error ()
          | some airOrd =>
            if daysDiff ((airOrd : Int) * 86400) now == 1 then
              Except.ok (some { ntype := NotifType.new_episode,
                                date := ep.airDate.getD "",
                                title := details.tvName,
                                episode := some ep })
            else Except.ok none
        else Except.ok none
      else Except.ok none
    | none =>
      if optTruthy details.lastAirDate && sub.notifyOnUpdate then
        match parseDate (details.lastAirDate.getD "") with
        | none => Except.error ()
        | some lastOrd =>
          let days := daysDiff now ((lastOrd : Int) * 86400)
          if withinWindow intervalHours days then
            Except.ok (some { ntype := NotifType.episode_aired,
                              date := details.lastAirDate.getD "",
                              title := details.tvName })
          else Except.ok none
      else Except.ok none
  else Except.ok none

/-! ## Notification Dispatcher (_send_notification)

The whole Python body sits inside a try/except that logs and returns, so
a delivery failure never propagates to the caller; the observable result
of one dispatch is captured by SendOutcome. -/

/-- guild.get_channel: resolves only channel ids the guild has. -/
def getChannel (g : DiscordGuild) (cid : Nat) : Option Nat :=
  if g.channels.contains cid then some cid else none

/-- Destination resolution of _send_notification: if
notification_channel_id is unset, use the system channel; otherwise use
guild.get_channel on it, with no further fallback. -/
def resolveChannel (g : DiscordGuild) (gd : GuildData) : Option Nat :=
  match gd.notificationChannelId with
  | none => g.systemChannelId
  | some cid => getChannel g cid

/-- Role-mention policy: a role is mentioned only if
notification_role_id is set, Config.NOTIFICATION_PING_ROLE is enabled,
and guild.get_role still resolves the role. -/
def mentionRole (g : DiscordGuild) (gd : GuildData) (pingFlag : Bool) : Bool :=
  match gd.notificationRoleId with
  | none => false
  | some rid => pingFlag && g.roles.contains rid

inductive SendOutcome where
  | sent (channelId : Nat) (withRoleMention : Bool)
  | skippedNoChannel
  | failed
deriving DecidableEq

/-- One run of _send_notification: resolve the destination; if none
resolves, log a warning and skip; otherwise compose the embed (always
succeeds for the four notification kinds) and attempt channel.send,
whose failure is caught and logged inside the method. -/
def sendNotificationStep (g : DiscordGuild) (gd : GuildData)
    (_notif : Notification) (pingFlag : Bool) (sendFails : Bool) : SendOutcome :=
  match resolveChannel g gd with
  | none => SendOutcome.skippedNoChannel
  | some ch =>
    if sendFails then SendOutcome.failed
    else SendOutcome.sent ch (mentionRole g gd pingFlag)

/-! ## Poll Loop (update_check)

The external collaborators of one cycle — discord guild resolution, the
subscription store, the TMDB fetch (which may raise), the
Config.NOTIFICATION_PING_ROLE flag and channel.send failures — are the
fields of Env.  The observable behaviour of a cycle is its list of
events: metadata fetch attempts, dispatch attempts, and last_checked
writes. -/

structure Env where
  now : Int
  intervalHours : Nat
  pingRoleFlag : Bool
  resolveGuild : Nat → Option DiscordGuild
  subsOf : Nat → List Subscription
  fetch : Subscription → Except Unit Details
  sendFails : Nat → Bool

inductive Event where
  | fetch (guildId subId : Nat)
  | dispatch (guildId subId : Nat) (out : SendOutcome)
  | writeLastChecked (guildId subId : Nat) (t : Int)
deriving DecidableEq

def Event.guildId : Event → Nat
  | .fetch g _ => g
  | .dispatch g _ _ => g
  | .writeLastChecked g _ _ => g

/-- The body of the per-subscription try block once the staleness skip
has been passed: fetch details (a raising fetch is caught by the
per-subscription except, so nothing after it runs and last_checked is
not written); run _check_for_updates (a ValueError likewise skips the
rest); if a notification was produced, _send_notification is invoked
(its failures are internal); then last_checked is set to now. -/
def processEligible (env : Env) (g : DiscordGuild) (gd : GuildData)
    (sub : Subscription) : List Event :=
  Event.fetch gd.id sub.id ::
    match env.fetch sub with
    | Except.error _ => []
    | Except.ok details =>
      match checkForUpdates env.intervalHours sub details env.now with
      | Except.error _ => []
      | Except.ok none => [Event.writeLastChecked gd.id sub.id env.now]
      | Except.ok (some notif) =>
        Event.dispatch gd.id sub.id
            (sendNotificationStep g gd notif env.pingRoleFlag (env.sendFails sub.id)) ::
          [Event.writeLastChecked gd.id sub.id env.now]

/-- One subscription's handling inside the cycle: skip (continue) when
last_checked is set and now - last_checked < timedelta(hours=interval). -/
def processSubscription (env : Env) (g : DiscordGuild) (gd : GuildData)
    (sub : Subscription) : List Event :=
  match sub.lastChecked with
  | some t =>
    if env.now - t < (env.intervalHours : Int) * 3600 then []
    else processEligible env g gd sub
  | none => processEligible env g gd sub

/-- One guild's handling: bot.get_guild must resolve (else continue);
then every subscription of the guild is processed in order, each inside
its own try/except (already folded into processSubscription /
processEligible).  An empty subscription list contributes no events,
exactly like the explicit continue in the source. -/
def processGuild (env : Env) (gd : GuildData) : List Event :=
  match env.resolveGuild gd.id with
  | none => []
  | some g => ((env.subsOf gd.id).map (processSubscription env g gd)).flatten

/-- One full cycle of update_check: the database query selects exactly
the guilds with auto_update_enabled = true, and each selected guild is
processed inside its own try/except. -/
def runCycle (env : Env) (guilds : List GuildData) : List Event :=
  ((guilds.filter (fun gd => gd.autoUpdateEnabled)).map (processGuild env)).flatten

/-! ## Rate limiter (TMDBRateLimiter.acquire)

One acquisition under the lock, as a pure function of the current
allowance and the elapsed seconds since last_check; the result is the
slept duration and the new allowance. -/

def acquireStep (rate period allowance elapsed : ℚ) : ℚ × ℚ :=
  let a0 := allowance + elapsed * (rate / period)
  let a1 := if a0 > rate then rate else a0
  if a1 < 1 then ((1 - a1) * (period / rate), (0 : ℚ))
  else ((0 : ℚ), a1 - 1)

/-- Modelled from the spec: the claimed upper bound
ceil(update_interval_hours / 24) in whole days for the release /
episode-aired windows (the source compares against the true-division
value update_interval_hours / 24 instead). -/
def specReleaseWindowDays (intervalHours : Nat) : Nat :=
  (intervalHours + 23) / 24

/-! ## Concrete fixtures used to instantiate the theorems -/

/-- A movie subscription with notify_on_release enabled. -/
def c1sub : Subscription := ⟨1, "movie", 603, true, true, none⟩

/-- Ordinal of 2024-01-01. -/
def c1rel : Nat := toOrdinal 2024 1 1

/-- TMDB movie details: released on 2024-01-01. -/
def c1det : Details :=
  { releaseDate := some "2024-01-01", status := some "Released", title := some "M" }

/-- Midnight of 2024-01-02: one whole day after the release. -/
def c1now : Int := (toOrdinal 2024 1 2 : Nat) * 86400

/-- 100 seconds after the release instant: zero whole days elapsed. -/
def c1wnow : Int := (c1rel : Int) * 86400 + 100

/-- A TV subscription with notify_on_update enabled. -/
def c2sub : Subscription := ⟨2, "tv", 100, true, true, none⟩

/-- A next episode airing on 2024-01-06. -/
def c2ep : Episode := ⟨some "2024-01-06", 1, 2, "E"⟩

/-- TV details: last episode aired 2024-01-01 (inside the window), next
episode five days ahead (so the single-day lookahead does not match). -/
def c2det : Details :=
  { lastAirDate := some "2024-01-01", nextEpisodeToAir := some c2ep,
    tvName := some "S" }

/-- The same TV details without a next episode to air. -/
def c2detNoNext : Details :=
  { lastAirDate := some "2024-01-01", tvName := some "S" }

/-- Midnight of 2024-01-01: zero days since the last air date. -/
def c2now : Int := (toOrdinal 2024 1 1 : Nat) * 86400

/-- Movie details whose release_date is truthy but not parseable. -/
def c3det : Details :=
  { releaseDate := some "not-a-date", status := some "Released", title := some "M" }

/-- A guild whose configured notification channel 5 does not resolve but
whose system channel 9 exists. -/
def c4g : DiscordGuild := ⟨some 9, [], []⟩

def c4gd : GuildData := ⟨1, true, some 5, none⟩

def c4notif : Notification := ⟨NotifType.release, "2024-01-01", some "M", none⟩

/-- A guild where the configured channel 5 does resolve. -/
def w4g : DiscordGuild := ⟨some 9, [5], []⟩

def w4gd : GuildData := ⟨1, true, some 5, none⟩

/-- A discord guild with channel 5 and role 3. -/
def wDG : DiscordGuild := ⟨some 9, [5], [3]⟩

/-- Environment for the staleness-skip witness: the subscription was
checked 500 seconds ago, far less than the 6-hour interval. -/
def env6 : Env :=
  { now := 1000, intervalHours := 6, pingRoleFlag := true,
    resolveGuild := fun _ => some wDG,
    subsOf := fun _ => [],
    fetch := fun _ => Except.error (),
    sendFails := fun _ => false }

def gd6 : GuildData := ⟨1, true, none, none⟩

def sub6 : Subscription := ⟨1, "movie", 603, true, true, some 500⟩

/-- A never-checked movie subscription (eligible in every cycle). -/
def sub7 : Subscription := ⟨1, "movie", 603, true, true, none⟩

def gd7 : GuildData := ⟨1, true, some 5, none⟩

/-- Environment whose metadata fetch raises. -/
def env7a : Env :=
  { now := c1wnow, intervalHours := 6, pingRoleFlag := true,
    resolveGuild := fun _ => some wDG,
    subsOf := fun _ => [sub7],
    fetch := fun _ => Except.error (),
    sendFails := fun _ => false }

/-- Environment whose fetch succeeds with a firing notification but whose
channel.send raises (caught inside _send_notification). -/
def env7b : Env :=
  { now := c1wnow, intervalHours := 6, pingRoleFlag := true,
    resolveGuild := fun _ => some wDG,
    subsOf := fun _ => [sub7],
    fetch := fun _ => Except.ok c1det,
    sendFails := fun _ => true }

/-- The notification produced for c1det at c1wnow. -/
def nf7 : Notification := ⟨NotifType.release, "2024-01-01", some "M", none⟩

def gd8a : GuildData := ⟨1, true, none, none⟩

def gd8b : GuildData := ⟨2, true, none, none⟩

/-- Environment for the fault-isolation witness. -/
def env8 : Env :=
  { now := 0, intervalHours := 6, pingRoleFlag := true,
    resolveGuild := fun _ => some wDG,
    subsOf := fun _ => [sub7],
    fetch := fun _ => Except.error (),
    sendFails := fun _ => false }

/-- Guild list with guild 1 disabled and guild 2 enabled. -/
def gd9a : GuildData := ⟨1, false, none, none⟩

def gd9b : GuildData := ⟨2, true, none, none⟩

def guilds9 : List GuildData := [gd9a, gd9b]

def sub9 : Subscription := ⟨7, "movie", 603, false, false, none⟩

def det9 : Details := { title := some "M" }

/-- Environment for the disabled-guild witness: guild 2 produces a fetch
event for subscription 7. -/
def env9 : Env :=
  { now := 0, intervalHours := 6, pingRoleFlag := true,
    resolveGuild := fun _ => some wDG,
    subsOf := fun _ => [sub9],
    fetch := fun _ => Except.ok det9,
    sendFails := fun _ => false }

/-- Environment whose guild lookup never resolves. -/
def env10 : Env :=
  { now := 0, intervalHours := 6, pingRoleFlag := true,
    resolveGuild := fun _ => none,
    subsOf := fun _ => [sub7],
    fetch := fun _ => Except.ok det9,
    sendFails := fun _ => false }

def gd10 : GuildData := ⟨3, true, none, none⟩

/-- Fixtures for the malformed-date witness. -/
def env3 : Env :=
  { now := 0, intervalHours := 6, pingRoleFlag := true,
    resolveGuild := fun _ => some wDG,
    subsOf := fun _ => [c1sub],
    fetch := fun _ => Except.ok c3det,
    sendFails := fun _ => false }

def gd3 : GuildData := ⟨1, true, none, none⟩

/-- TV details with no next episode and a truthy but malformed
last_air_date. -/
def c3detTv : Details :=
  { lastAirDate := some "not-a-date", tvName := some "S" }

/-! ## Helper lemmas -/

theorem guildId_of_mem_processEligible {env : Env} {g : DiscordGuild}
    {gd : GuildData} {sub : Subscription} {e : Event}
    (he : e ∈ processEligible env g gd sub) : e.guildId = gd.id := by
  unfold processEligible at he
  rcases List.mem_cons.mp he with rfl | he
  · rfl
  · split at he
    · simp at he
    · split at he
      · simp at he
      · simp at he
        subst he
        rfl
      · simp at he
        rcases he with rfl | rfl <;> rfl

theorem guildId_of_mem_processSubscription {env : Env} {g : DiscordGuild}
    {gd : GuildData} {sub : Subscription} {e : Event}
    (he : e ∈ processSubscription env g gd sub) : e.guildId = gd.id := by
  unfold processSubscription at he
  split at he
  · split at he
    · simp at he
    · exact guildId_of_mem_processEligible he
  · exact guildId_of_mem_processEligible he

theorem mem_runCycle_enabled {env : Env} {guilds : List GuildData} {e : Event}
    (he : e ∈ runCycle env guilds) :
    ∃ gd ∈ guilds, gd.autoUpdateEnabled = true ∧ e.guildId = gd.id := by
  unfold runCycle at he
  simp only [List.mem_flatten, List.mem_map] at he
  obtain ⟨l, ⟨gd, hgd, rfl⟩, hel⟩ := he
  have hf := List.mem_filter.mp hgd
  refine ⟨gd, hf.1, by simpa using hf.2, ?_⟩
  unfold processGuild at hel
  split at hel
  · simp at hel
  · simp only [List.mem_flatten, List.mem_map] at hel
    obtain ⟨l2, ⟨sub, _, rfl⟩, hel⟩ := hel
    exact guildId_of_mem_processSubscription hel

theorem processSubscription_eq_processEligible (env : Env) (g : DiscordGuild)
    (gd : GuildData) (sub : Subscription)
    (hEl : ∀ t, sub.lastChecked = some t →
      ¬(env.now - t < (env.intervalHours : Int) * 3600)) :
    processSubscription env g gd sub = processEligible env g gd sub := by
  rcases hlc : sub.lastChecked with _ | t
  · simp [processSubscription, hlc]
  · simp [processSubscription, hlc, hEl t hlc]

/-! ## Claims -/

/-- Claim C6: a subscription whose last_checked is set and within the
update interval of now is skipped by the cycle: no fetch, no evaluator
or dispatcher invocation, and no last_checked write. -/
theorem staleness_skip (env : Env) (g : DiscordGuild) (gd : GuildData)
    (sub : Subscription) (t : Int) (hlc : sub.lastChecked = some t)
    (hlt : env.now - t < (env.intervalHours : Int) * 3600) :
    processSubscription env g gd sub = [] := by
  simp [processSubscription, hlc, hlt]

theorem staleness_skip_witness :
    processSubscription env6 wDG gd6 sub6 = [] :=
  staleness_skip env6 wDG gd6 sub6 500 rfl (by decide)

/-- Claim C10: a guild record whose id does not resolve through
bot.get_guild is skipped entirely by the cycle: no subscription of that
guild is loaded, fetched, dispatched, or has last_checked written. -/
theorem unresolved_guild_skipped (env : Env) (gd : GuildData)
    (h : env.resolveGuild gd.id = none) :
    processGuild env gd = [] := by
  simp [processGuild, h]

theorem unresolved_guild_skipped_witness :
    processGuild env10 gd10 = [] :=
  unresolved_guild_skipped env10 gd10 rfl

/-- Claim C5: one acquisition of the rate limiter replenishes the
allowance by elapsed * (rate / period) capped at rate; if the
replenished allowance is at least 1 it deducts exactly 1 without
sleeping, otherwise it sleeps (1 - allowance) * (period / rate) seconds
and resets the allowance to exactly 0; the resulting allowance always
lies in [0, rate].  The operation is a total function, so it can only
delay, never fail. -/
theorem acquire_contract (rate period allowance elapsed : ℚ)
    (hr : 0 < rate) (hp : 0 < period) (he : 0 ≤ elapsed) :
    (1 ≤ min (allowance + elapsed * (rate / period)) rate →
      acquireStep rate period allowance elapsed =
        (0, min (allowance + elapsed * (rate / period)) rate - 1)) ∧
    (min (allowance + elapsed * (rate / period)) rate < 1 →
      acquireStep rate period allowance elapsed =
        ((1 - min (allowance + elapsed * (rate / period)) rate) * (period / rate), 0)) ∧
    0 ≤ (acquireStep rate period allowance elapsed).2 ∧
    (acquireStep rate period allowance elapsed).2 ≤ rate := by
  have hmin : (if allowance + elapsed * (rate / period) > rate then rate
      else allowance + elapsed * (rate / period)) =
      min (allowance + elapsed * (rate / period)) rate := by
    by_cases hc : allowance + elapsed * (rate / period) > rate
    · rw [if_pos hc, min_eq_right (le_of_lt hc)]
    · rw [if_neg hc, min_eq_left (le_of_not_lt hc)]
  have h0 : acquireStep rate period allowance elapsed =
      if (if allowance + elapsed * (rate / period) > rate then rate
          else allowance + elapsed * (rate / period)) < 1 then
        ((1 - (if allowance + elapsed * (rate / period) > rate then rate
            else allowance + elapsed * (rate / period))) * (period / rate), 0)
      else (0, (if allowance + elapsed * (rate / period) > rate then rate
          else allowance + elapsed * (rate / period)) - 1) := rfl
  rw [hmin] at h0
  refine ⟨?_, ?_, ?_, ?_⟩
  · intro hge
    rw [h0, if_neg (not_lt.mpr hge)]
  · intro hlt
    rw [h0, if_pos hlt]
  · rw [h0]
    split_ifs with h1
    · simp
    · have : 1 ≤ min (allowance + elapsed * (rate / period)) rate := not_lt.mp h1
      simp only
      linarith
  · rw [h0]
    split_ifs with h1
    · simpa using le_of_lt hr
    · have h2 : min (allowance + elapsed * (rate / period)) rate ≤ rate :=
        min_le_right _ _
      simp only
      linarith

theorem acquire_contract_witness :
    acquireStep 40 10 40 0 = (0, min ((40 : ℚ) + 0 * (40 / 10)) 40 - 1) :=
  (acquire_contract 40 10 40 0 (by norm_num) (by norm_num) (by norm_num)).1
    (by norm_num)

/-- Claim C1 counterexample: with the default update_interval_hours = 6,
a movie released exactly one whole day ago (status "Released",
notify_on_release true) produces NO release outcome, although the
claimed window 0 ≤ days ≤ ceil(6 / 24) = 1 contains days = 1: the code
compares days against the true-division value 6 / 24 = 0.25, not
against its ceiling. -/
theorem release_window_ceil_refuted :
    checkForUpdates 6 c1sub c1det c1now = Except.ok none ∧
    daysDiff c1now ((c1rel : Int) * 86400) = 1 ∧
    specReleaseWindowDays 6 = 1 :=
  ⟨rfl, rfl, rfl⟩

/-- Claim C1 (amended): for a movie subscription with notify_on_release
true, status "Released" and a parseable release_date, a release outcome
is emitted exactly when 0 ≤ days and days ≤ update_interval_hours / 24
as a true (rational) division — i.e. 24 * days ≤ update_interval_hours;
with the default 6 this admits only days = 0. -/
theorem release_window_code (h : Nat) (sub : Subscription) (det : Details)
    (now : Int) (rd : String) (ord : Nat)
    (hm : sub.mediaType = "movie") (hn : sub.notifyOnRelease = true)
    (hrd : det.releaseDate = some rd) (hne : rd ≠ "")
    (hpd : parseDate rd = some ord) (hs : det.status = some "Released") :
    (withinWindow h (daysDiff now ((ord : Int) * 86400)) →
      checkForUpdates h sub det now =
        Except.ok (some ⟨NotifType.release, rd, det.title, none⟩)) ∧
    (¬withinWindow h (daysDiff now ((ord : Int) * 86400)) →
      checkForUpdates h sub det now = Except.ok none) := by
  have hbeq : (rd == "") = false := beq_eq_false_iff_ne.mpr hne
  have hkey : checkForUpdates h sub det now =
      if withinWindow h (daysDiff now ((ord : Int) * 86400)) then
        Except.ok (some ⟨NotifType.release, rd, det.title, none⟩)
      else Except.ok none := by
    unfold checkForUpdates
    rw [hm, hrd, hs, hn]
    simp [optTruthy, hbeq, hpd]
  constructor
  · intro hw
    rw [hkey, if_pos hw]
  · intro hw
    rw [hkey, if_neg hw]

theorem release_window_code_witness :
    checkForUpdates 6 c1sub c1det c1wnow =
      Except.ok (some ⟨NotifType.release, "2024-01-01", some "M", none⟩) :=
  (release_window_code 6 c1sub c1det c1wnow "2024-01-01" c1rel rfl rfl rfl
      (by decide) rfl rfl).1 (by decide)

/-- Claim C2 counterexample: a series subscription with notify_on_update
true, a last_air_date zero days in the past (inside the claimed window)
and a next_episode_to_air present whose air date is five days ahead
(non-matching single-day lookahead) produces NO outcome at all: because
next_episode_to_air is truthy, the elif branch holding the episode-aired
rule is never evaluated. -/
theorem episode_aired_next_present_refuted :
    checkForUpdates 6 c2sub c2det c2now = Except.ok none ∧
    daysDiff c2now ((toOrdinal 2024 1 1 : Int) * 86400) = 0 ∧
    daysDiff ((toOrdinal 2024 1 6 : Int) * 86400) c2now = 5 :=
  ⟨rfl, rfl, rfl⟩

/-- Claim C2 (amended): for a series subscription, (1) when
next_episode_to_air is present the evaluator never emits an
episode-aired outcome, whatever last_air_date is; (2) a present
next episode whose truthy, parseable air date is not exactly 1 day
ahead yields no outcome at all; (3) an episode-aired outcome is emitted
when next_episode_to_air is absent, notify_on_update is true,
last_air_date is truthy and parseable, and the elapsed days lie within
0 ≤ days ≤ update_interval_hours / 24 (true division); and (4) ONLY
under those conditions: any episode-aired emission implies all of
them. -/
theorem episode_aired_code (h : Nat) (sub : Subscription) (det : Details)
    (now : Int) (hm : sub.mediaType = "tv") :
    (∀ ep, det.nextEpisodeToAir = some ep →
      ∀ n, checkForUpdates h sub det now = Except.ok (some n) →
        n.ntype ≠ NotifType.episode_aired) ∧
    (∀ ep ad aord, det.nextEpisodeToAir = some ep → sub.notifyOnUpdate = true →
      ep.airDate = some ad → ad ≠ "" → parseDate ad = some aord →
      daysDiff ((aord : Int) * 86400) now ≠ 1 →
      checkForUpdates h sub det now = Except.ok none) ∧
    (det.nextEpisodeToAir = none → sub.notifyOnUpdate = true →
      ∀ la ord, det.lastAirDate = some la → la ≠ "" → parseDate la = some ord →
        withinWindow h (daysDiff now ((ord : Int) * 86400)) →
        checkForUpdates h sub det now =
          Except.ok (some ⟨NotifType.episode_aired, la, det.tvName, none⟩)) ∧
    (∀ n, checkForUpdates h sub det now = Except.ok (some n) →
      n.ntype = NotifType.episode_aired →
      det.nextEpisodeToAir = none ∧ sub.notifyOnUpdate = true ∧
      ∃ la ord, det.lastAirDate = some la ∧ la ≠ "" ∧
        parseDate la = some ord ∧
        withinWindow h (daysDiff now ((ord : Int) * 86400))) := by
  have hmov : (sub.mediaType == "movie") = false := by rw [hm]; rfl
  have htv : (sub.mediaType == "tv") = true := by rw [hm]; rfl
  have hD : ∀ n, checkForUpdates h sub det now = Except.ok (some n) →
      n.ntype = NotifType.episode_aired →
      det.nextEpisodeToAir = none ∧ sub.notifyOnUpdate = true ∧
      ∃ la ord, det.lastAirDate = some la ∧ la ≠ "" ∧
        parseDate la = some ord ∧
        withinWindow h (daysDiff now ((ord : Int) * 86400)) := by
    intro n hres hnt
    cases hnext : det.nextEpisodeToAir with
    | some ep =>
      cases hnu : sub.notifyOnUpdate with
      | false =>
        unfold checkForUpdates at hres
        simp [hmov, htv, hnext, hnu] at hres
      | true =>
        cases had : optTruthy ep.airDate with
        | false =>
          unfold checkForUpdates at hres
          simp [hmov, htv, hnext, hnu, had] at hres
        | true =>
          cases hpad : parseDate (ep.airDate.getD "") with
          | none =>
            unfold checkForUpdates at hres
            simp [hmov, htv, hnext, hnu, had, hpad] at hres
          | some aord =>
            cases hd1 : daysDiff ((aord : Int) * 86400) now == 1 with
            | false =>
              unfold checkForUpdates at hres
              simp [hmov, htv, hnext, hnu, had, hpad, hd1] at hres
            | true =>
              unfold checkForUpdates at hres
              simp [hmov, htv, hnext, hnu, had, hpad, hd1] at hres
              subst hres
              simp at hnt
    | none =>
      cases hla : det.lastAirDate with
      | none =>
        unfold checkForUpdates at hres
        simp [hmov, htv, hnext, hla, optTruthy] at hres
      | some la =>
        cases hnu : sub.notifyOnUpdate with
        | false =>
          unfold checkForUpdates at hres
          simp [hmov, htv, hnext, hla, hnu] at hres
        | true =>
          cases hbe : la == "" with
          | true =>
            unfold checkForUpdates at hres
            simp [hmov, htv, hnext, hla, hnu, optTruthy, hbe] at hres
          | false =>
            cases hpd2 : parseDate la with
            | none =>
              unfold checkForUpdates at hres
              simp [hmov, htv, hnext, hla, hnu, optTruthy, hbe, hpd2] at hres
            | some ord =>
              by_cases hw : withinWindow h (daysDiff now ((ord : Int) * 86400))
              · exact ⟨rfl, rfl, la, ord, rfl,
                  beq_eq_false_iff_ne.mp hbe, hpd2, hw⟩
              · unfold checkForUpdates at hres
                simp [hmov, htv, hnext, hla, hnu, optTruthy, hbe, hpd2, hw]
                  at hres
  refine ⟨?_, ?_, ?_, hD⟩
  · intro ep hep n hres habs
    obtain ⟨hnone, -⟩ := hD n hres habs
    rw [hep] at hnone
    exact Option.noConfusion hnone
  · intro ep ad aord hep hnu had hadne hpad hne1
    have hbeq : (ad == "") = false := beq_eq_false_iff_ne.mpr hadne
    have hd1 : (daysDiff ((aord : Int) * 86400) now == 1) = false :=
      beq_eq_false_iff_ne.mpr hne1
    unfold checkForUpdates
    simp [hmov, htv, hep, hnu, had, optTruthy, hbeq, hpad, hd1]
  · intro hnone hnu la ord hla hne hpd hw
    have hbeq : (la == "") = false := beq_eq_false_iff_ne.mpr hne
    unfold checkForUpdates
    simp [hmov, htv, hnone, hla, hnu, optTruthy, hbeq, hpd, hw]

theorem episode_aired_code_witness :
    checkForUpdates 6 c2sub c2detNoNext c2now =
      Except.ok (some ⟨NotifType.episode_aired, "2024-01-01", some "S", none⟩) ∧
    checkForUpdates 6 c2sub c2det c2now = Except.ok none :=
  ⟨(episode_aired_code 6 c2sub c2detNoNext c2now rfl).2.2.1 rfl rfl "2024-01-01"
      (toOrdinal 2024 1 1) rfl (by decide) rfl (by decide),
   (episode_aired_code 6 c2sub c2det c2now rfl).2.1 c2ep "2024-01-06"
      (toOrdinal 2024 1 6) rfl rfl rfl (by decide) rfl (by decide)⟩

/-- Claim C3 counterexample: a movie subscription with notify_on_release
true and a truthy but malformed release_date makes the evaluator raise
(datetime.strptime ValueError), instead of returning normally with no
notification as the claim states. -/
theorem malformed_date_refuted :
    checkForUpdates 6 c1sub c3det 0 = Except.error () ∧
    c3det.releaseDate = some "not-a-date" ∧
    parseDate "not-a-date" = none :=
  ⟨rfl, rfl, rfl⟩

/-- Claim C3 (amended): a missing (absent or empty) date string yields
"no notification" without raising, on each of the evaluator's date
paths (movie release_date, series next_episode_to_air.air_date, series
last_air_date); but a truthy malformed date string on any of those
paths makes the evaluator raise (datetime.strptime ValueError); the
exception does not escape the poll cycle — it is caught by the
per-subscription handler, whose observable effect is that only the
fetch happened (no dispatch, no last_checked write). -/
theorem malformed_date_code (env : Env) (g : DiscordGuild) (gd : GuildData)
    (sub : Subscription) (det : Details) (s : String)
    (hne : s ≠ "") (hpd : parseDate s = none) :
    (sub.mediaType = "movie" → sub.notifyOnRelease = true →
      det.releaseDate = some s →
      checkForUpdates env.intervalHours sub det env.now = Except.error ()) ∧
    (sub.mediaType = "tv" → sub.notifyOnUpdate = true →
      ∀ ep, det.nextEpisodeToAir = some ep → ep.airDate = some s →
        checkForUpdates env.intervalHours sub det env.now = Except.error ()) ∧
    (sub.mediaType = "tv" → sub.notifyOnUpdate = true →
      det.nextEpisodeToAir = none → det.lastAirDate = some s →
      checkForUpdates env.intervalHours sub det env.now = Except.error ()) ∧
    (∀ (d2 : Details) (n2 : Int), sub.mediaType = "movie" →
      (d2.releaseDate = none ∨ d2.releaseDate = some "") →
      checkForUpdates env.intervalHours sub d2 n2 = Except.ok none) ∧
    (∀ (d2 : Details) (n2 : Int) (ep : Episode), sub.mediaType = "tv" →
      d2.nextEpisodeToAir = some ep →
      (ep.airDate = none ∨ ep.airDate = some "") →
      checkForUpdates env.intervalHours sub d2 n2 = Except.ok none) ∧
    (∀ (d2 : Details) (n2 : Int), sub.mediaType = "tv" →
      d2.nextEpisodeToAir = none →
      (d2.lastAirDate = none ∨ d2.lastAirDate = some "") →
      checkForUpdates env.intervalHours sub d2 n2 = Except.ok none) ∧
    (env.fetch sub = Except.ok det → sub.lastChecked = none →
      checkForUpdates env.intervalHours sub det env.now = Except.error () →
      processSubscription env g gd sub = [Event.fetch gd.id sub.id]) := by
  have hbeq : (s == "") = false := beq_eq_false_iff_ne.mpr hne
  refine ⟨?_, ?_, ?_, ?_, ?_, ?_, ?_⟩
  · intro hm hn hrd
    unfold checkForUpdates
    rw [hm, hrd, hn]
    simp [optTruthy, hbeq, hpd]
  · intro hm hn ep hep hads
    have hmov : (sub.mediaType == "movie") = false := by rw [hm]; rfl
    have htv : (sub.mediaType == "tv") = true := by rw [hm]; rfl
    unfold checkForUpdates
    simp [hmov, htv, hep, hn, hads, optTruthy, hbeq, hpd]
  · intro hm hn hnext hla
    have hmov : (sub.mediaType == "movie") = false := by rw [hm]; rfl
    have htv : (sub.mediaType == "tv") = true := by rw [hm]; rfl
    unfold checkForUpdates
    simp [hmov, htv, hnext, hla, hn, optTruthy, hbeq, hpd]
  · intro d2 n2 hm hdisj
    have hbm : (sub.mediaType == "movie") = true := by rw [hm]; rfl
    rcases hdisj with h2 | h2 <;> simp [checkForUpdates, hbm, h2, optTruthy]
  · intro d2 n2 ep hm hnext hdisj
    have hmov : (sub.mediaType == "movie") = false := by rw [hm]; rfl
    have htv : (sub.mediaType == "tv") = true := by rw [hm]; rfl
    rcases hdisj with h2 | h2 <;>
      simp [checkForUpdates, hmov, htv, hnext, h2, optTruthy]
  · intro d2 n2 hm hnext hdisj
    have hmov : (sub.mediaType == "movie") = false := by rw [hm]; rfl
    have htv : (sub.mediaType == "tv") = true := by rw [hm]; rfl
    rcases hdisj with h2 | h2 <;>
      simp [checkForUpdates, hmov, htv, hnext, h2, optTruthy]
  · intro hfe hlc herr
    simp [processSubscription, hlc, processEligible, hfe, herr]

theorem malformed_date_code_witness :
    checkForUpdates env3.intervalHours c1sub c3det env3.now =
      Except.error () ∧
    processSubscription env3 wDG gd3 c1sub = [Event.fetch 1 1] ∧
    checkForUpdates env3.intervalHours c2sub c3detTv env3.now =
      Except.error () := by
  have ha := malformed_date_code env3 wDG gd3 c1sub c3det "not-a-date"
    (by decide) rfl
  have hb := malformed_date_code env3 wDG gd3 c2sub c3detTv "not-a-date"
    (by decide) rfl
  exact ⟨ha.1 rfl rfl rfl,
    ha.2.2.2.2.2.2 rfl rfl (ha.1 rfl rfl rfl),
    hb.2.2.1 rfl rfl rfl rfl⟩

/-- Claim C4 counterexample: with notification_channel_id set to a
channel that does not resolve and a system channel that does exist, the
dispatcher skips sending instead of falling back to the system channel
as the claim states. -/
theorem dispatch_fallback_refuted :
    sendNotificationStep c4g c4gd c4notif true false =
      SendOutcome.skippedNoChannel ∧
    c4gd.notificationChannelId = some 5 ∧
    c4g.systemChannelId = some 9 :=
  ⟨rfl, rfl, rfl⟩

/-- Claim C4 (amended): the dispatcher uses the configured notification
channel when it is set and resolves; it falls back to the guild's
system channel ONLY when the setting is unset; when the setting is set
but does not resolve it logs a warning and skips (no fallback); and
when no destination resolves it skips. -/
theorem dispatch_resolution_code (g : DiscordGuild) (gd : GuildData)
    (notif : Notification) (pf sf : Bool) :
    (gd.notificationChannelId = none → resolveChannel g gd = g.systemChannelId) ∧
    (∀ cid, gd.notificationChannelId = some cid → cid ∈ g.channels →
      resolveChannel g gd = some cid) ∧
    (∀ cid, gd.notificationChannelId = some cid → cid ∉ g.channels →
      sendNotificationStep g gd notif pf sf = SendOutcome.skippedNoChannel) ∧
    (resolveChannel g gd = none →
      sendNotificationStep g gd notif pf sf = SendOutcome.skippedNoChannel) ∧
    (∀ ch, resolveChannel g gd = some ch →
      sendNotificationStep g gd notif pf sf =
        if sf then SendOutcome.failed
        else SendOutcome.sent ch (mentionRole g gd pf)) := by
  refine ⟨?_, ?_, ?_, ?_, ?_⟩
  · intro h
    simp [resolveChannel, h]
  · intro cid h hc
    simp [resolveChannel, h, getChannel, hc]
  · intro cid h hc
    simp [sendNotificationStep, resolveChannel, h, getChannel, hc]
  · intro h
    simp [sendNotificationStep, h]
  · intro ch h
    simp [sendNotificationStep, h]

theorem dispatch_resolution_code_witness :
    resolveChannel w4g w4gd = some 5 ∧
    sendNotificationStep c4g c4gd c4notif true false =
      SendOutcome.skippedNoChannel :=
  ⟨(dispatch_resolution_code w4g w4gd c4notif true false).2.1 5 rfl (by decide),
   (dispatch_resolution_code c4g c4gd c4notif true false).2.2.1 5 rfl (by decide)⟩

/-- Claim C7: within one subscription's handling, a failed metadata
fetch leaves last_checked unwritten (only the fetch attempt is
observable), while a successful fetch and evaluation followed by a
failed delivery still writes last_checked = now — the dispatch outcome,
env.sendFails included, never suppresses the write. -/
theorem fetch_error_vs_dispatch_error (env : Env) (g : DiscordGuild)
    (gd : GuildData) (sub : Subscription)
    (hEl : ∀ t, sub.lastChecked = some t →
      ¬(env.now - t < (env.intervalHours : Int) * 3600)) :
    (env.fetch sub = Except.error () →
      processSubscription env g gd sub = [Event.fetch gd.id sub.id]) ∧
    (∀ det nf, env.fetch sub = Except.ok det →
      checkForUpdates env.intervalHours sub det env.now = Except.ok (some nf) →
      processSubscription env g gd sub =
        [Event.fetch gd.id sub.id,
         Event.dispatch gd.id sub.id
           (sendNotificationStep g gd nf env.pingRoleFlag (env.sendFails sub.id)),
         Event.writeLastChecked gd.id sub.id env.now]) := by
  have heq := processSubscription_eq_processEligible env g gd sub hEl
  constructor
  · intro hf
    rw [heq]
    simp [processEligible, hf]
  · intro det nf hf hc
    rw [heq]
    simp [processEligible, hf, hc]

theorem fetch_error_vs_dispatch_error_witness :
    processSubscription env7a wDG gd7 sub7 = [Event.fetch 1 1] ∧
    processSubscription env7b wDG gd7 sub7 =
      [Event.fetch 1 1, Event.dispatch 1 1 SendOutcome.failed,
       Event.writeLastChecked 1 1 c1wnow] :=
  ⟨(fetch_error_vs_dispatch_error env7a wDG gd7 sub7
      (fun t ht => Option.noConfusion ht)).1 rfl,
   (fetch_error_vs_dispatch_error env7b wDG gd7 sub7
      (fun t ht => Option.noConfusion ht)).2 c1det nf7 rfl rfl⟩

/-- Claim C8: the poll cycle isolates failures: a subscription whose
fetch raises contributes only its fetch attempt and leaves the
processing of the subscriptions before and after it unchanged, and the
events of a cycle over any two guild segments are the concatenation of
the events of each segment, so no guild's failure aborts another's
processing.  runCycle is a total function, which embeds the top-level
try/except of update_check: a cycle always runs to completion. -/
theorem cycle_fault_isolation (env : Env) (gs1 gs2 : List GuildData)
    (g : DiscordGuild) (gd : GuildData) (xs ys : List Subscription)
    (sub : Subscription) (hf : env.fetch sub = Except.error ()) :
    runCycle env (gs1 ++ gs2) = runCycle env gs1 ++ runCycle env gs2 ∧
    ((xs ++ sub :: ys).map (processSubscription env g gd)).flatten =
      (xs.map (processSubscription env g gd)).flatten ++
        (processSubscription env g gd sub ++
          (ys.map (processSubscription env g gd)).flatten) ∧
    (∀ e ∈ processSubscription env g gd sub, e = Event.fetch gd.id sub.id) := by
  refine ⟨?_, ?_, ?_⟩
  · simp [runCycle, List.filter_append]
  · simp
  · intro e he
    unfold processSubscription at he
    split at he
    · split at he
      · simp at he
      · unfold processEligible at he
        rw [hf] at he
        simpa using he
    · unfold processEligible at he
      rw [hf] at he
      simpa using he

theorem cycle_fault_isolation_witness :
    runCycle env8 ([gd8a] ++ [gd8b]) =
      runCycle env8 [gd8a] ++ runCycle env8 [gd8b] :=
  (cycle_fault_isolation env8 [gd8a] [gd8b] wDG gd8a [] [] sub7 rfl).1

/-- Claim C9: a guild whose auto_update_enabled flag is false (and whose
id is not shared with an enabled guild) contributes no events to the
cycle: none of its subscriptions is fetched, dispatched, or has
last_checked written, because the database query selects only enabled
guilds. -/
theorem disabled_guild_skipped (env : Env) (guilds : List GuildData)
    (gid : Nat)
    (hdis : ∀ gd ∈ guilds, gd.id = gid → gd.autoUpdateEnabled = false) :
    ∀ e ∈ runCycle env guilds, e.guildId ≠ gid := by
  intro e he hgid
  obtain ⟨gd, hmem, hen, hid⟩ := mem_runCycle_enabled he
  have hgd : gd.id = gid := by rw [← hid]; exact hgid
  have h1 := hdis gd hmem hgd
  rw [h1] at hen
  exact Bool.noConfusion hen

theorem disabled_guild_skipped_witness :
    Event.guildId (Event.fetch 2 7) ≠ 1 :=
  disabled_guild_skipped env9 guilds9 1 (by decide) (Event.fetch 2 7) (by decide)

end AutoUpdateFilm
